import Mathlib

/-!
Verification development for the pkce-utils repository.

The TypeScript sources `src/crypto.utils.ts`, `src/schemas.ts` and the
standalone validator `validateAuth` are embedded shallowly: pure helpers
become Lean functions, browser collaborators (session storage, navigation,
the HTTP client, the SHA-256 primitive, the secure random source) become
explicit parameters or traced effects, and thrown exceptions become an
error sum type.
-/

namespace PkceUtils

/-! ## JavaScript value model -/

mutual

/-- Model of a JavaScript/JSON value as produced by `res.json()` and inspected
by `validateAuth`.  Objects carry an ordered field list. -/
inductive JSValue where
  | vstr (s : String)
  | vnum (n : Int)
  | vbool (b : Bool)
  | vnull
  | vundefined
  | vobj (fields : JSFields)

/-- Ordered field list of a JavaScript object. -/
inductive JSFields where
  | fnil
  | fcons (key : String) (value : JSValue) (rest : JSFields)

end

/-- Property access `obj.key`: first field with the given name, `undefined`
when absent (and on non-object values, which are only accessed after the
object guard in `validateAuth`). -/
def JSFields.lookup (key : String) : JSFields → JSValue
  | .fnil => .vundefined
  | .fcons k v rest => if k = key then v else JSFields.lookup key rest

/-- Property access on a value: `undefined` unless the value is an object
with that field. -/
def JSValue.getField (v : JSValue) (key : String) : JSValue :=
  match v with
  | .vobj fields => fields.lookup key
  | _ => .vundefined

/-- JavaScript `typeof x === 'object'`: true for objects and for `null`. -/
def JSValue.typeofIsObject : JSValue → Bool
  | .vobj _ => true
  | .vnull => true
  | _ => false

/-- JavaScript strict equality with `null`. -/
def JSValue.isNull : JSValue → Bool
  | .vnull => true
  | _ => false

/-- JavaScript `typeof x === 'string'`. -/
def JSValue.typeofIsString : JSValue → Bool
  | .vstr _ => true
  | _ => false

/-- JavaScript `typeof x === 'number'`. -/
def JSValue.typeofIsNumber : JSValue → Bool
  | .vnum _ => true
  | _ => false

/-- JavaScript strict equality of a value with the string literal
`'Bearer'` (a value is `===` to a string literal exactly when it is that
string). -/
def JSValue.isBearer : JSValue → Bool
  | .vstr s => s = "Bearer"
  | _ => false

mutual

/-- Modelled from the spec: the platform `JSON.stringify` collaborator used
for the transport-error message (not part of src/).  String escaping is not
modelled; `undefined`-valued fields are omitted as in JavaScript. -/
def jsonStringify : JSValue → String
  | .vstr s => "\"" ++ s ++ "\""
  | .vnum n => toString n
  | .vbool b => if b then "true" else "false"
  | .vnull => "null"
  | .vundefined => "undefined"
  | .vobj fields => "\x7b" ++ jsonStringifyFields fields ++ "\x7d"

/-- Field serialization for `jsonStringify`. -/
def jsonStringifyFields : JSFields → String
  | .fnil => ""
  | .fcons k v rest =>
    match v with
    | .vundefined => jsonStringifyFields rest
    | _ =>
      "\"" ++ k ++ "\":" ++ jsonStringify v ++
        (match rest with
         | .fnil => ""
         | .fcons _ _ _ => "," ++ jsonStringifyFields rest)

end

/-! ## Auth response validation (`validateAuth`) -/

/-- Embedding of `validateAuth` from the repository's standalone validator:
a chain of guards throwing `Error` with the given messages, returning the
input itself on success. -/
def validateAuth (input : JSValue) : Except String JSValue :=
  if !input.typeofIsObject || input.isNull then
    .error "Input must be a non-null object"
  else if !(input.getField "access_token").typeofIsString then
    .error "access_token must be a string"
  else if !(input.getField "expires_in").typeofIsNumber then
    .error "expires_in must be a number"
  else if !(input.getField "id_token").typeofIsString then
    .error "id_token must be a string"
  else if !(input.getField "refresh_token").typeofIsString then
    .error "refresh_token must be a string"
  else if !(input.getField "token_type").isBearer then
    .error "token_type must be 'Bearer'"
  else
    .ok input

/-- Whether an `Except` result is a success. -/
def resultIsOk {ε α : Type} : Except ε α → Bool
  | .ok _ => true
  | .error _ => false

/-- The spec's stated failure condition for `validate`, word for word:
raw is not an object, or `access_token`/`id_token`/`refresh_token` is not a
string, or `expires_in` is not a number, or `token_type` is present and not
exactly `"Bearer"`. -/
def specSchemaFail (raw : JSValue) : Bool :=
  (match raw with | .vobj _ => false | _ => true) ||
  !(raw.getField "access_token").typeofIsString ||
  !(raw.getField "id_token").typeofIsString ||
  !(raw.getField "refresh_token").typeofIsString ||
  !(raw.getField "expires_in").typeofIsNumber ||
  ((match raw.getField "token_type" with | .vundefined => false | _ => true) &&
    !(raw.getField "token_type").isBearer)

/-- The validation success condition actually implemented by `validateAuth`:
like the spec's but `token_type` must equal `"Bearer"` even when absent. -/
def validateOkCond (raw : JSValue) : Bool :=
  raw.typeofIsObject && !raw.isNull &&
  (raw.getField "access_token").typeofIsString &&
  (raw.getField "expires_in").typeofIsNumber &&
  (raw.getField "id_token").typeofIsString &&
  (raw.getField "refresh_token").typeofIsString &&
  (raw.getField "token_type").isBearer

/-! ## Encoder (`arrayBufferToBase64`) -/

/-- Standard base64 alphabet indexing, as used by the platform `btoa`
collaborator: `A`-`Z`, `a`-`z`, `0`-`9`, `+`, `/`. -/
def base64Char (n : Nat) : Char :=
  if n < 26 then Char.ofNat (65 + n)
  else if n < 52 then Char.ofNat (97 + (n - 26))
  else if n < 62 then Char.ofNat (48 + (n - 52))
  else if n = 62 then '+'
  else if n = 63 then '/'
  else '?'

/-- Modelled from the spec: the platform `btoa` collaborator, standard
base64 with `=` padding over a byte sequence (the `binary` string built
from the `Uint8Array` byte by byte).  Not part of src/. -/
def btoaChars : List Nat → List Char
  | [] => []
  | [b1] =>
    [base64Char (b1 / 4), base64Char (b1 % 4 * 16), '=', '=']
  | [b1, b2] =>
    [base64Char (b1 / 4), base64Char (b1 % 4 * 16 + b2 / 16),
     base64Char (b2 % 16 * 4), '=']
  | b1 :: b2 :: b3 :: rest =>
    base64Char (b1 / 4) :: base64Char (b1 % 4 * 16 + b2 / 16) ::
    base64Char (b2 % 16 * 4 + b3 / 64) :: base64Char (b3 % 64) ::
    btoaChars rest

/-- The `.replace` of every `+` by `-` applied character-wise. -/
def replacePlus (c : Char) : Char := if c = '+' then '-' else c

/-- The `.replace` of every `/` by `_` applied character-wise. -/
def replaceSlash (c : Char) : Char := if c = '/' then '_' else c

/-- The `.replace` of the trailing run of `=` by the empty string
(regex `=+$`). -/
def stripTrailingEq (l : List Char) : List Char :=
  ((l.reverse).dropWhile (fun c => c = '=')).reverse

/-- Embedding of `arrayBufferToBase64`: base64-encode the bytes with the
`btoa` collaborator, then map `+` to `-`, `/` to `_`, and strip the
trailing `=` padding. -/
def arrayBufferToBase64 (buffer : List Nat) : String :=
  ⟨stripTrailingEq (((btoaChars buffer).map replacePlus).map replaceSlash)⟩

/-! ## NonceGenerator and ChallengeBuilder -/

/-- Hex digit character, lower case, as produced by `Number.toString(16)`. -/
def hexChar (n : Nat) : Char :=
  if n < 10 then Char.ofNat (48 + n) else Char.ofNat (97 + (n - 10))

/-- The `b.toString(16).padStart(2, '0')` of a byte: exactly two lower-case
hex digits for bytes below 256. -/
def byteToHex (b : Nat) : List Char :=
  [hexChar (b / 16), hexChar (b % 16)]

/-- Embedding of `generateNonce`: hash a stringified secure-random value and
return the hex encoding of the digest bytes.  The SHA-256 collaborator and
the random value are explicit parameters. -/
def generateNonce (hash : String → List Nat) (randomValue : String) : String :=
  ⟨((hash randomValue).map byteToHex).flatten⟩

/-- The PKCE challenge triple returned by `getChallenge`. -/
structure Challenge where
  state : String
  codeVerifier : String
  codeChallenge : String
deriving DecidableEq, Repr

/-- Embedding of `getChallenge`: the two nonces are generated from
independent random draws, and the challenge is the encoded SHA-256 digest
of the verifier. -/
def getChallenge (hash : String → List Nat) (random1 random2 : String) : Challenge :=
  let state := generateNonce hash random1
  let codeVerifier := generateNonce hash random2
  ⟨state, codeVerifier, arrayBufferToBase64 (hash codeVerifier)⟩

/-! ## Session storage and effect traces -/

/-- The session-scoped key-value store, as an association list with unique
keys (the `sessionStorage` collaborator). -/
abbrev Store := List (String × String)

/-- The `sessionStorage.getItem` lookup: first entry with the key, `null`
(here `none`) when absent. -/
def getItem (st : Store) (key : String) : Option String :=
  (st.find? (fun p => p.1 = key)).map (fun p => p.2)

/-- The `sessionStorage.setItem` write: replaces any entry with the key. -/
def setItem (st : Store) (key value : String) : Store :=
  (key, value) :: st.filter (fun p => ¬ p.1 = key)

/-- The `sessionStorage.removeItem` delete. -/
def removeItem (st : Store) (key : String) : Store :=
  st.filter (fun p => ¬ p.1 = key)

/-- An authorization URL as constructed by `new URL(path, idpUrl)` plus a
`URLSearchParams` query assignment: the base it is resolved against, the
path, and the ordered query parameters. -/
structure UrlStruct where
  base : String
  path : String
  query : List (String × String)
deriving DecidableEq, Repr

/-- Observable side effects of the redirect functions, in program order. -/
inductive Event where
  | setItemEv (key value : String)
  | getItemEv (key : String)
  | removeItemEv (key : String)
  | navigateUrl (url : UrlStruct)
  | navigateRaw (url : String)
deriving DecidableEq, Repr

/-! ## AuthorizationRedirector -/

/-- Parameters of `redirectToLogin`; `path` and `scope` are optional with
defaults `/login` and `openid`. -/
structure RedirectToLoginParams where
  idpUrl : String
  clientId : String
  redirectUri : String
  path : Option String
  scope : Option String
deriving DecidableEq, Repr

/-- The login URL built by `redirectToLogin`. -/
def loginUrl (p : RedirectToLoginParams) (ch : Challenge) : UrlStruct :=
  ⟨p.idpUrl, p.path.getD "/login",
   [("response_type", "code"),
    ("scope", p.scope.getD "openid"),
    ("state", ch.state),
    ("client_id", p.clientId),
    ("code_challenge", ch.codeChallenge),
    ("code_challenge_method", "S256"),
    ("redirect_uri", p.redirectUri)]⟩

/-- Embedding of `redirectToLogin`: given the challenge obtained from
`getChallenge` and the current store, persist the verifier under the state,
build the URL, and navigate.  Returns the final store and the ordered
effect trace. -/
def redirectToLogin (p : RedirectToLoginParams) (ch : Challenge) (store : Store) :
    Store × List Event :=
  let store1 := setItem store ch.state ch.codeVerifier
  let url := loginUrl p ch
  (store1, [Event.setItemEv ch.state ch.codeVerifier, Event.navigateUrl url])

/-- Parameters of `redirectToLogout`; `path` is optional with default
`/logout`. -/
structure RedirectToLogoutParams where
  idpUrl : String
  path : Option String
  clientId : String
  logoutUri : String
deriving DecidableEq, Repr

/-- Embedding of `redirectToLogout`: build the logout URL by template
string concatenation and navigate.  The store is passed through untouched
and the trace contains no storage event. -/
def redirectToLogout (p : RedirectToLogoutParams) (store : Store) :
    Store × List Event :=
  let logoutUrl := p.idpUrl ++ p.path.getD "/logout" ++ "?client_id=" ++
    p.clientId ++ "&logout_uri=" ++ p.logoutUri
  (store, [Event.navigateRaw logoutUrl])

/-! ## TokenExchanger (`exchangeCode`) -/

/-- The error taxonomy of the flow, one constructor per throw site. -/
inductive FlowError where
  | missingParameter
  | missingVerifier
  | transport (message : String)
  | schema (message : String)
deriving DecidableEq, Repr

/-- The message carried by each error, exactly the strings thrown by the
code. -/
def FlowError.message : FlowError → String
  | .missingParameter => "Missing state or code"
  | .missingVerifier => "Missing state"
  | .transport m => m
  | .schema m => m

/-- An HTTP request as issued through the `fetch` collaborator. -/
structure Request where
  url : String
  method : String
  contentType : String
  body : String
deriving DecidableEq, Repr

/-- The HTTP response the `fetch` collaborator produces: the `res.ok`
success flag and the JSON-decoded body. -/
structure HttpResponse where
  ok : Bool
  body : JSValue

/-- Parameters of `exchangeCode`. -/
structure ExchangeCodeParams where
  code : String
  codeVerifier : String
  idpUrl : String
  clientId : String
  redirectUri : String
deriving DecidableEq, Repr

/-- The exact request body built by `exchangeCode`: the five pairs joined
by ampersands, values substituted verbatim. -/
def exchangeBody (p : ExchangeCodeParams) : String :=
  "grant_type=authorization_code" ++
  "&client_id=" ++ p.clientId ++
  "&code=" ++ p.code ++
  "&code_verifier=" ++ p.codeVerifier ++
  "&redirect_uri=" ++ p.redirectUri

/-- Embedding of `exchangeCode`: issue a single POST to the token endpoint,
throw a transport error (message embedding the serialized response body) on
a non-success status, and otherwise validate the body.  The response is an
explicit parameter; the returned list records every request issued. -/
def exchangeCode (p : ExchangeCodeParams) (resp : HttpResponse) :
    List Request × Except FlowError JSValue :=
  let req : Request :=
    ⟨p.idpUrl ++ "/oauth2/token", "POST", "application/x-www-form-urlencoded",
     exchangeBody p⟩
  if resp.ok then
    match validateAuth resp.body with
    | .ok v => ([req], .ok v)
    | .error m => ([req], .error (.schema m))
  else
    ([req], .error (.transport ("Error exchanging code: " ++ jsonStringify resp.body)))

/-! ## CallbackHandler (`handleCallback`) -/

/-- The `URLSearchParams.get` lookup over the parsed query string of the
current page: first pair with the name, `null` (here `none`) when absent. -/
def queryGet (search : List (String × String)) (name : String) : Option String :=
  (search.find? (fun p => p.1 = name)).map (fun p => p.2)

/-- JavaScript truthiness of a `string | null` value: `null` and the empty
string are falsy. -/
def truthy : Option String → Bool
  | none => false
  | some s => !s.isEmpty

/-- Parameters of `handleCallback`. -/
structure CallbackParams where
  idpUrl : String
  clientId : String
  redirectUri : String
deriving DecidableEq, Repr

/-- Everything observable about one `handleCallback` run: the final store,
the storage operations in program order, the HTTP requests issued, and the
result. -/
structure CallbackResult where
  store : Store
  storageEvents : List Event
  requests : List Request
  result : Except FlowError JSValue

/-- Embedding of `handleCallback`: read `code` and `state` from the query
string, throw if either is absent or empty, read then unconditionally
remove the stored verifier, throw if none was found, and delegate to
`exchangeCode`. -/
def handleCallback (p : CallbackParams) (search : List (String × String))
    (store : Store) (resp : HttpResponse) : CallbackResult :=
  let code := queryGet search "code"
  let state := queryGet search "state"
  if !truthy state || !truthy code then
    ⟨store, [], [], .error .missingParameter⟩
  else
    let stateS := state.getD ""
    let codeS := code.getD ""
    let codeVerifier := getItem store stateS
    let store1 := removeItem store stateS
    if !truthy codeVerifier then
      ⟨store1, [Event.getItemEv stateS, Event.removeItemEv stateS], [],
       .error .missingVerifier⟩
    else
      let ex :=
        exchangeCode ⟨codeS, codeVerifier.getD "", p.idpUrl, p.clientId, p.redirectUri⟩ resp
      ⟨store1, [Event.getItemEv stateS, Event.removeItemEv stateS], ex.1, ex.2⟩

/-! ## Storage lemmas -/

theorem getItem_setItem_self (st : Store) (k v : String) :
    getItem (setItem st k v) k = some v := by
  simp [getItem, setItem, List.find?]

theorem getItem_removeItem_self (st : Store) (k : String) :
    getItem (removeItem st k) k = none := by
  induction st with
  | nil => rfl
  | cons a tl ih =>
    by_cases h : a.1 = k
    · rw [show removeItem (a :: tl) k = removeItem tl k by
        simp [removeItem, List.filter, h]]
      exact ih
    · rw [show removeItem (a :: tl) k = a :: removeItem tl k by
        simp [removeItem, List.filter_cons, h]]
      rw [show getItem (a :: removeItem tl k) k = getItem (removeItem tl k) k by
        simp [getItem, List.find?_cons, h]]
      exact ih

/-! ## Claims C1, C2, C6, C7, C9 -/

/-- C1: in every `redirectToLogin` run the storage write of the code
verifier under the state key occurs strictly before the navigation event in
the effect trace, and a lookup of the resulting store by that state yields
exactly the code verifier of the same call. -/
theorem c1_persist_before_navigate (p : RedirectToLoginParams) (ch : Challenge)
    (store : Store) :
    (redirectToLogin p ch store).2 =
      [Event.setItemEv ch.state ch.codeVerifier, Event.navigateUrl (loginUrl p ch)] ∧
    (∃ i j, i < j ∧
      (redirectToLogin p ch store).2.get? i =
        some (Event.setItemEv ch.state ch.codeVerifier) ∧
      (redirectToLogin p ch store).2.get? j =
        some (Event.navigateUrl (loginUrl p ch))) ∧
    getItem (redirectToLogin p ch store).1 ch.state = some ch.codeVerifier :=
  ⟨rfl, ⟨0, 1, Nat.zero_lt_one, rfl, rfl⟩,
    getItem_setItem_self store ch.state ch.codeVerifier⟩

/-- C2: the code challenge returned by `getChallenge` is the base64url
encoding of the SHA-256 digest of the returned code verifier, it is a
deterministic function of the verifier (equal verifiers give equal
challenges), and the state is generated from the first random draw only,
independent of the verifier. -/
theorem c2_challenge_derivation (hash : String → List Nat) (r1 r2 : String) :
    (getChallenge hash r1 r2).codeChallenge =
      arrayBufferToBase64 (hash (getChallenge hash r1 r2).codeVerifier) ∧
    (∀ r1' r2',
      (getChallenge hash r1' r2').codeVerifier = (getChallenge hash r1 r2).codeVerifier →
      (getChallenge hash r1' r2').codeChallenge = (getChallenge hash r1 r2).codeChallenge) ∧
    (∀ r2', (getChallenge hash r1 r2').state = (getChallenge hash r1 r2).state) := by
  refine ⟨rfl, ?_, fun r2' => rfl⟩
  intro r1' r2' h
  simp only [getChallenge] at h ⊢
  rw [h]

/-- C2 witness at concrete inputs. -/
theorem c2_challenge_derivation_witness :
    (getChallenge (fun _ => [0, 1]) "x" "z").codeChallenge =
      (getChallenge (fun _ => [0, 1]) "y" "z").codeChallenge :=
  ((c2_challenge_derivation (fun _ => [0, 1]) "y" "z").2.1 "x" "z" rfl)

/-- C6: every `exchangeCode` run issues exactly one request, a POST to the
token endpoint with the urlencoded content type and a body that is exactly
the five pairs joined by ampersands with the values substituted verbatim,
whatever the response was (so no retry happens after a failure). -/
theorem c6_exchange_single_request (p : ExchangeCodeParams) (resp : HttpResponse) :
    (exchangeCode p resp).1 =
      [⟨p.idpUrl ++ "/oauth2/token", "POST", "application/x-www-form-urlencoded",
        "grant_type=authorization_code" ++ "&client_id=" ++ p.clientId ++
        "&code=" ++ p.code ++ "&code_verifier=" ++ p.codeVerifier ++
        "&redirect_uri=" ++ p.redirectUri⟩] ∧
    (exchangeCode p resp).1.length = 1 := by
  unfold exchangeCode exchangeBody
  cases hok : resp.ok <;> simp
  cases h : validateAuth resp.body <;> simp

/-- C7: `redirectToLogin` navigates to the URL made of `path` (default
"/login") resolved against `idpUrl` whose query is exactly the seven
documented parameters, with state and code challenge taken from the
challenge generated in that call. -/
theorem c7_login_url_shape (p : RedirectToLoginParams) (hash : String → List Nat)
    (r1 r2 : String) (store : Store) :
    (redirectToLogin p (getChallenge hash r1 r2) store).2 =
      [Event.setItemEv (getChallenge hash r1 r2).state (getChallenge hash r1 r2).codeVerifier,
       Event.navigateUrl
        ⟨p.idpUrl, p.path.getD "/login",
         [("response_type", "code"),
          ("scope", p.scope.getD "openid"),
          ("state", (getChallenge hash r1 r2).state),
          ("client_id", p.clientId),
          ("code_challenge", (getChallenge hash r1 r2).codeChallenge),
          ("code_challenge_method", "S256"),
          ("redirect_uri", p.redirectUri)]⟩] := rfl

/-- C9: `redirectToLogout` leaves the session store untouched and its only
effect is a navigation to the literal concatenation of idpUrl, the path
(default "/logout"), and the unencoded client id and logout uri query. -/
theorem c9_logout_no_storage (p : RedirectToLogoutParams) (store : Store) :
    (redirectToLogout p store).1 = store ∧
    (redirectToLogout p store).2 =
      [Event.navigateRaw (p.idpUrl ++ p.path.getD "/logout" ++ "?client_id=" ++
        p.clientId ++ "&logout_uri=" ++ p.logoutUri)] :=
  ⟨rfl, rfl⟩

/-! ## Truthiness and callback lemmas -/

theorem truthy_some (s : String) (h : s ≠ "") : truthy (some s) = true := by
  simp [truthy, Bool.eq_false_iff, String.isEmpty_iff, h]

theorem truthy_some_empty : truthy (some "") = false := by decide

theorem handleCallback_eq (p : CallbackParams) (search : List (String × String))
    (store : Store) (resp : HttpResponse) (s c : String)
    (hs : queryGet search "state" = some s) (hs0 : s ≠ "")
    (hc : queryGet search "code" = some c) (hc0 : c ≠ "") :
    handleCallback p search store resp =
      if truthy (getItem store s) then
        ⟨removeItem store s, [Event.getItemEv s, Event.removeItemEv s],
         (exchangeCode ⟨c, (getItem store s).getD "", p.idpUrl, p.clientId,
            p.redirectUri⟩ resp).1,
         (exchangeCode ⟨c, (getItem store s).getD "", p.idpUrl, p.clientId,
            p.redirectUri⟩ resp).2⟩
      else
        ⟨removeItem store s, [Event.getItemEv s, Event.removeItemEv s], [],
         .error .missingVerifier⟩ := by
  unfold handleCallback
  rw [hs, hc]
  simp only [truthy_some s hs0, truthy_some c hc0, Bool.not_true, Bool.or_self,
    Bool.false_or, Option.getD_some]
  by_cases hv : truthy (getItem store s) <;> simp [hv]

/-- C3: whenever both code and state are present (and nonempty) in the
query string, `handleCallback` removes the storage entry under the state
key whatever was stored there and whatever the exchange outcome is, so a
second lookup finds nothing and a second `handleCallback` with the same
state fails with the missing-verifier error. -/
theorem c3_verifier_removed_unconditionally (p : CallbackParams)
    (search : List (String × String)) (store : Store) (resp : HttpResponse)
    (s c : String)
    (hs : queryGet search "state" = some s) (hs0 : s ≠ "")
    (hc : queryGet search "code" = some c) (hc0 : c ≠ "") :
    getItem (handleCallback p search store resp).store s = none ∧
    (handleCallback p search (handleCallback p search store resp).store resp).result =
      Except.error FlowError.missingVerifier := by
  have hst : (handleCallback p search store resp).store = removeItem store s := by
    rw [handleCallback_eq p search store resp s c hs hs0 hc hc0]
    by_cases hv : truthy (getItem store s) <;> simp [hv]
  have hnone : getItem (handleCallback p search store resp).store s = none := by
    rw [hst]; exact getItem_removeItem_self store s
  refine ⟨hnone, ?_⟩
  rw [handleCallback_eq p search (handleCallback p search store resp).store resp s c
    hs hs0 hc hc0, hnone]
  simp [truthy]

/-- C3 witness at concrete inputs. -/
theorem c3_verifier_removed_unconditionally_witness :
    getItem (handleCallback ⟨"https://idp", "cid", "https://app/cb"⟩
      [("code", "abc"), ("state", "st1")] [("st1", "ver1")]
      ⟨false, JSValue.vstr "bad"⟩).store "st1" = none :=
  (c3_verifier_removed_unconditionally ⟨"https://idp", "cid", "https://app/cb"⟩
    [("code", "abc"), ("state", "st1")] [("st1", "ver1")]
    ⟨false, JSValue.vstr "bad"⟩ "st1" "abc" rfl (by decide) rfl (by decide)).1

/-- C10: a present-but-empty `code` or `state` query parameter makes
`handleCallback` fail with the same missing-parameter error as a wholly
absent one, before any storage read or removal: the store is returned
untouched, the storage-event trace is empty, and no request is issued. -/
theorem c10_empty_param_is_missing (p : CallbackParams)
    (search : List (String × String)) (store : Store) (resp : HttpResponse)
    (h : queryGet search "code" = some "" ∨ queryGet search "state" = some "") :
    (handleCallback p search store resp).result = Except.error FlowError.missingParameter ∧
    (handleCallback p search store resp).store = store ∧
    (handleCallback p search store resp).storageEvents = [] ∧
    (handleCallback p search store resp).requests = [] := by
  have hcond : (!truthy (queryGet search "state") || !truthy (queryGet search "code")) = true := by
    rcases h with h | h <;> rw [h] <;> simp [truthy_some_empty]
  unfold handleCallback
  simp [hcond]

/-- C10 witness at a concrete input with a stored verifier left intact. -/
theorem c10_empty_param_is_missing_witness :
    (handleCallback ⟨"https://idp", "cid", "https://app/cb"⟩
      [("code", ""), ("state", "st1")] [("st1", "ver1")]
      ⟨true, JSValue.vnull⟩).store = [("st1", "ver1")] :=
  (c10_empty_param_is_missing ⟨"https://idp", "cid", "https://app/cb"⟩
    [("code", ""), ("state", "st1")] [("st1", "ver1")]
    ⟨true, JSValue.vnull⟩ (Or.inl rfl)).2.1

theorem truthy_eq_true_iff (o : Option String) :
    truthy o = true ↔ ∃ s, o = some s ∧ s ≠ "" := by
  cases o with
  | none => simp [truthy]
  | some s =>
    simp only [truthy, Bool.not_eq_true']
    constructor
    · intro h
      exact ⟨s, rfl, fun he => by rw [he] at h; exact absurd h (by decide)⟩
    · rintro ⟨t, ht, ht0⟩
      cases ht
      simp [Bool.eq_false_iff, String.isEmpty_iff, ht0]

/-- C4: the callback fails with the missing-parameter error when code or
state is absent or empty, with the missing-verifier error when both are
present but no verifier is stored under the state, and with a transport
error whose message embeds the serialized response body when the token
endpoint answers with a non-success status; the three kinds are distinct,
and a success is returned only when none of the three conditions holds. -/
theorem c4_callback_error_taxonomy (p : CallbackParams)
    (search : List (String × String)) (store : Store) (resp : HttpResponse) :
    ((!truthy (queryGet search "state") || !truthy (queryGet search "code")) = true →
      (handleCallback p search store resp).result =
        Except.error FlowError.missingParameter) ∧
    (∀ s c, queryGet search "state" = some s → s ≠ "" →
      queryGet search "code" = some c → c ≠ "" →
      truthy (getItem store s) = false →
      (handleCallback p search store resp).result =
        Except.error FlowError.missingVerifier) ∧
    (∀ s c v, queryGet search "state" = some s → s ≠ "" →
      queryGet search "code" = some c → c ≠ "" →
      getItem store s = some v → v ≠ "" → resp.ok = false →
      (handleCallback p search store resp).result =
        Except.error (FlowError.transport
          ("Error exchanging code: " ++ jsonStringify resp.body))) ∧
    (∀ a, (handleCallback p search store resp).result = Except.ok a →
      truthy (queryGet search "state") = true ∧
      truthy (queryGet search "code") = true ∧
      truthy (getItem store ((queryGet search "state").getD "")) = true ∧
      resp.ok = true) ∧
    (FlowError.missingParameter ≠ FlowError.missingVerifier ∧
      (∀ m, FlowError.missingParameter ≠ FlowError.transport m) ∧
      (∀ m, FlowError.missingVerifier ≠ FlowError.transport m)) := by
  refine ⟨?_, ?_, ?_, ?_, by simp, fun m => by simp, fun m => by simp⟩
  · intro hcond
    unfold handleCallback
    simp [hcond]
  · intro s c hs hs0 hc hc0 hv
    rw [handleCallback_eq p search store resp s c hs hs0 hc hc0]
    simp [hv]
  · intro s c v hs hs0 hc hc0 hv hv0 hok
    rw [handleCallback_eq p search store resp s c hs hs0 hc hc0, hv]
    simp only [truthy_some v hv0, if_true, Option.getD_some]
    simp [exchangeCode, hok]
  · intro a ha
    by_cases hcond :
      (!truthy (queryGet search "state") || !truthy (queryGet search "code")) = true
    · rw [show (handleCallback p search store resp).result =
          Except.error FlowError.missingParameter by unfold handleCallback; simp [hcond]]
        at ha
      cases ha
    · have hboth : truthy (queryGet search "state") = true ∧
          truthy (queryGet search "code") = true := by
        simpa [not_or] using hcond
      obtain ⟨hstT, hcT⟩ := hboth
      obtain ⟨s, hs, hs0⟩ := (truthy_eq_true_iff _).1 hstT
      obtain ⟨c, hc, hc0⟩ := (truthy_eq_true_iff _).1 hcT
      rw [handleCallback_eq p search store resp s c hs hs0 hc hc0] at ha
      by_cases hv : truthy (getItem store s)
      · rw [if_pos hv] at ha
        by_cases hok : resp.ok
        · exact ⟨hstT, hcT, by rw [hs]; exact hv, hok⟩
        · rw [Bool.not_eq_true] at hok
          simp [exchangeCode, hok] at ha
      · rw [if_neg hv] at ha
        cases ha

/-- C4 witness: the three failure kinds at concrete inputs. -/
theorem c4_callback_error_taxonomy_witness :
    (handleCallback ⟨"https://idp", "cid", "https://app/cb"⟩
      [("state", "st1")] [] ⟨true, JSValue.vnull⟩).result =
      Except.error FlowError.missingParameter ∧
    (handleCallback ⟨"https://idp", "cid", "https://app/cb"⟩
      [("code", "abc"), ("state", "st1")] [] ⟨true, JSValue.vnull⟩).result =
      Except.error FlowError.missingVerifier ∧
    (handleCallback ⟨"https://idp", "cid", "https://app/cb"⟩
      [("code", "abc"), ("state", "st1")] [("st1", "ver1")]
      ⟨false, JSValue.vstr "bad"⟩).result =
      Except.error (FlowError.transport
        ("Error exchanging code: " ++ jsonStringify (JSValue.vstr "bad"))) :=
  ⟨(c4_callback_error_taxonomy ⟨"https://idp", "cid", "https://app/cb"⟩
      [("state", "st1")] [] ⟨true, JSValue.vnull⟩).1 (by decide),
   (c4_callback_error_taxonomy ⟨"https://idp", "cid", "https://app/cb"⟩
      [("code", "abc"), ("state", "st1")] [] ⟨true, JSValue.vnull⟩).2.1
      "st1" "abc" rfl (by decide) rfl (by decide) (by decide),
   (c4_callback_error_taxonomy ⟨"https://idp", "cid", "https://app/cb"⟩
      [("code", "abc"), ("state", "st1")] [("st1", "ver1")]
      ⟨false, JSValue.vstr "bad"⟩).2.2.1
      "st1" "abc" "ver1" rfl (by decide) rfl (by decide) rfl (by decide) rfl⟩

/-! ## Claim C5: validation -/

/-- The amended failure condition: as the spec's `specSchemaFail` but with
the `token_type` clause not conditioned on presence — a missing
`token_type` is rejected too. -/
def specSchemaFailAmended (raw : JSValue) : Bool :=
  (match raw with | .vobj _ => false | _ => true) ||
  !(raw.getField "access_token").typeofIsString ||
  !(raw.getField "id_token").typeofIsString ||
  !(raw.getField "refresh_token").typeofIsString ||
  !(raw.getField "expires_in").typeofIsNumber ||
  !(raw.getField "token_type").isBearer

theorem resultIsOk_validateAuth (raw : JSValue) :
    resultIsOk (validateAuth raw) = validateOkCond raw := by
  unfold validateAuth validateOkCond
  cases h1 : raw.typeofIsObject <;>
  cases h2 : raw.isNull <;>
  cases h3 : (raw.getField "access_token").typeofIsString <;>
  cases h4 : (raw.getField "expires_in").typeofIsNumber <;>
  cases h5 : (raw.getField "id_token").typeofIsString <;>
  cases h6 : (raw.getField "refresh_token").typeofIsString <;>
  cases h7 : (raw.getField "token_type").isBearer <;>
  simp [h1, h2, h3, h4, h5, h6, h7, resultIsOk]

theorem validateOkCond_eq_not_amended (raw : JSValue) :
    validateOkCond raw = !specSchemaFailAmended raw := by
  unfold validateOkCond specSchemaFailAmended
  cases raw <;>
  · first
    | rfl
    | (rename_i fields
       cases h3 : ((JSValue.vobj fields).getField "access_token").typeofIsString <;>
       cases h4 : ((JSValue.vobj fields).getField "expires_in").typeofIsNumber <;>
       cases h5 : ((JSValue.vobj fields).getField "id_token").typeofIsString <;>
       cases h6 : ((JSValue.vobj fields).getField "refresh_token").typeofIsString <;>
       cases h7 : ((JSValue.vobj fields).getField "token_type").isBearer <;>
       simp [h3, h4, h5, h6, h7, JSValue.typeofIsObject, JSValue.isNull])

/-- C5 counterexample: a response carrying the four typed token fields but
no `token_type` at all satisfies none of the spec's listed failure
conditions, yet `validateAuth` rejects it. -/
theorem c5_counterexample :
    specSchemaFail (JSValue.vobj
      (.fcons "access_token" (.vstr "a")
        (.fcons "expires_in" (.vnum 60)
          (.fcons "id_token" (.vstr "b")
            (.fcons "refresh_token" (.vstr "c") .fnil))))) = false ∧
    validateAuth (JSValue.vobj
      (.fcons "access_token" (.vstr "a")
        (.fcons "expires_in" (.vnum 60)
          (.fcons "id_token" (.vstr "b")
            (.fcons "refresh_token" (.vstr "c") .fnil))))) =
      Except.error "token_type must be 'Bearer'" := by
  constructor <;> rfl

/-- C5 (amended): `validateAuth` fails exactly when the input is not an
object, a token field is not a string, `expires_in` is not a number, or
`token_type` is not exactly the string `"Bearer"` — including when it is
absent; values are never coerced, and on success the input itself is
returned unchanged. -/
theorem c5_validate_iff (raw : JSValue) :
    (resultIsOk (validateAuth raw) = false ↔ specSchemaFailAmended raw = true) ∧
    (∀ v, validateAuth raw = Except.ok v → v = raw) := by
  constructor
  · rw [resultIsOk_validateAuth, validateOkCond_eq_not_amended]
    cases specSchemaFailAmended raw <;> simp
  · intro v h
    unfold validateAuth at h
    repeat' split at h
    all_goals cases h
    rfl

/-- C5 witness: a numeric-looking string for `expires_in` is rejected, and
a conforming object is returned unchanged. -/
theorem c5_validate_iff_witness :
    resultIsOk (validateAuth (JSValue.vobj
      (.fcons "access_token" (.vstr "a")
        (.fcons "expires_in" (.vstr "60")
          (.fcons "id_token" (.vstr "b")
            (.fcons "refresh_token" (.vstr "c")
              (.fcons "token_type" (.vstr "Bearer") .fnil))))))) = false ∧
    (JSValue.vobj
      (.fcons "access_token" (.vstr "a")
        (.fcons "expires_in" (.vnum 60)
          (.fcons "id_token" (.vstr "b")
            (.fcons "refresh_token" (.vstr "c")
              (.fcons "token_type" (.vstr "Bearer") .fnil)))))) =
    (JSValue.vobj
      (.fcons "access_token" (.vstr "a")
        (.fcons "expires_in" (.vnum 60)
          (.fcons "id_token" (.vstr "b")
            (.fcons "refresh_token" (.vstr "c")
              (.fcons "token_type" (.vstr "Bearer") .fnil)))))) :=
  ⟨(c5_validate_iff _).1.mpr rfl, (c5_validate_iff _).2 _ rfl⟩

/-! ## Claim C8: base64url round trip -/

/-- The character the source's two replacements produce for a given base64
alphabet index: the base64url alphabet. -/
def base64UrlChar (n : Nat) : Char := replaceSlash (replacePlus (base64Char n))

/-- Padless base64url encoding of a byte list; proved below to equal the
source's replace-and-strip pipeline. -/
def encodeB64url : List Nat → List Char
  | [] => []
  | [b1] =>
    [base64UrlChar (b1 / 4), base64UrlChar (b1 % 4 * 16)]
  | [b1, b2] =>
    [base64UrlChar (b1 / 4), base64UrlChar (b1 % 4 * 16 + b2 / 16),
     base64UrlChar (b2 % 16 * 4)]
  | b1 :: b2 :: b3 :: rest =>
    base64UrlChar (b1 / 4) :: base64UrlChar (b1 % 4 * 16 + b2 / 16) ::
    base64UrlChar (b2 % 16 * 4 + b3 / 64) :: base64UrlChar (b3 % 64) ::
    encodeB64url rest

/-- Modelled from the spec: the base64url alphabet value of a character,
the inverse table of the decoder referenced by the round-trip property
(`decode` is not part of src/). -/
def base64UrlValue (c : Char) : Option Nat :=
  if 'A' ≤ c ∧ c ≤ 'Z' then some (c.toNat - 65)
  else if 'a' ≤ c ∧ c ≤ 'z' then some (c.toNat - 97 + 26)
  else if '0' ≤ c ∧ c ≤ '9' then some (c.toNat - 48 + 52)
  else if c = '-' then some 62
  else if c = '_' then some 63
  else none

/-- Modelled from the spec: the padless base64url decoder (`decode` of the
round-trip property; not part of src/): sextets are read four at a time,
with two or three trailing characters decoding to one or two final bytes. -/
def decodeB64url : List Char → Option (List Nat)
  | [] => some []
  | [_] => none
  | [c1, c2] =>
    match base64UrlValue c1, base64UrlValue c2 with
    | some s1, some s2 => some [s1 * 4 + s2 / 16]
    | _, _ => none
  | [c1, c2, c3] =>
    match base64UrlValue c1, base64UrlValue c2, base64UrlValue c3 with
    | some s1, some s2, some s3 =>
      some [s1 * 4 + s2 / 16, s2 % 16 * 16 + s3 / 4]
    | _, _, _ => none
  | c1 :: c2 :: c3 :: c4 :: rest =>
    match base64UrlValue c1, base64UrlValue c2, base64UrlValue c3,
      base64UrlValue c4, decodeB64url rest with
    | some s1, some s2, some s3, some s4, some bs =>
      some ((s1 * 4 + s2 / 16) :: (s2 % 16 * 16 + s3 / 4) ::
        (s3 % 4 * 64 + s4) :: bs)
    | _, _, _, _, _ => none

theorem base64UrlValue_base64UrlChar_fin :
    ∀ n : Fin 64, base64UrlValue (base64UrlChar n.val) = some n.val := by decide

theorem base64UrlChar_good_fin :
    ∀ n : Fin 64, base64UrlChar n.val ≠ '+' ∧ base64UrlChar n.val ≠ '/' ∧
      base64UrlChar n.val ≠ '=' := by decide

theorem base64UrlValue_base64UrlChar (n : Nat) (h : n < 64) :
    base64UrlValue (base64UrlChar n) = some n :=
  base64UrlValue_base64UrlChar_fin ⟨n, h⟩

theorem base64UrlChar_good (n : Nat) (h : n < 64) :
    base64UrlChar n ≠ '+' ∧ base64UrlChar n ≠ '/' ∧ base64UrlChar n ≠ '=' :=
  base64UrlChar_good_fin ⟨n, h⟩

theorem stripTrailingEq_append (a b : List Char) :
    stripTrailingEq (a ++ b) =
      if stripTrailingEq b = [] then stripTrailingEq a else a ++ stripTrailingEq b := by
  unfold stripTrailingEq
  rw [List.reverse_append, List.dropWhile_append]
  by_cases h : (List.dropWhile (fun c => c = '=') b.reverse).isEmpty
  · rw [if_pos h, if_pos]
    rw [List.isEmpty_iff] at h
    rw [h, List.reverse_nil]
  · rw [if_neg h, if_neg]
    · rw [List.reverse_append]; simp
    · rw [List.isEmpty_iff] at h
      intro hc
      exact h (by simpa using congrArg List.reverse hc)

theorem strip_pad2 (x y : Char) (hy : y ≠ '=') :
    stripTrailingEq [x, y, '=', '='] = [x, y] := by
  unfold stripTrailingEq
  simp [List.dropWhile, hy]

theorem strip_pad1 (x y z : Char) (hz : z ≠ '=') :
    stripTrailingEq [x, y, z, '='] = [x, y, z] := by
  unfold stripTrailingEq
  simp [List.dropWhile, hz]

theorem strip_pad0 (x y z w : Char) (hw : w ≠ '=') :
    stripTrailingEq [x, y, z, w] = [x, y, z, w] := by
  unfold stripTrailingEq
  simp [List.dropWhile, hw]

theorem encodeB64url_ne_nil (l : List Nat) (h : l ≠ []) : encodeB64url l ≠ [] := by
  match l with
  | [] => exact absurd rfl h
  | [b1] => simp [encodeB64url]
  | [b1, b2] => simp [encodeB64url]
  | b1 :: b2 :: b3 :: rest => simp [encodeB64url]

theorem map_replace_base64Char (n : Nat) :
    replaceSlash (replacePlus (base64Char n)) = base64UrlChar n := rfl

theorem stripmap_btoa :
    ∀ l : List Nat, (∀ b ∈ l, b < 256) →
      stripTrailingEq (((btoaChars l).map replacePlus).map replaceSlash) =
        encodeB64url l
  | [], _ => rfl
  | [b1], h => by
    have hb1 : b1 < 256 := h b1 (by simp)
    have h2 : b1 % 4 * 16 < 64 := by omega
    simp only [btoaChars, List.map_cons, List.map_nil, map_replace_base64Char]
    rw [show replaceSlash (replacePlus '=') = '=' from rfl]
    rw [strip_pad2 _ _ (base64UrlChar_good _ h2).2.2]
    rfl
  | [b1, b2], h => by
    have hb1 : b1 < 256 := h b1 (by simp)
    have hb2 : b2 < 256 := h b2 (by simp)
    have h3 : b2 % 16 * 4 < 64 := by omega
    simp only [btoaChars, List.map_cons, List.map_nil, map_replace_base64Char]
    rw [show replaceSlash (replacePlus '=') = '=' from rfl]
    rw [strip_pad1 _ _ _ (base64UrlChar_good _ h3).2.2]
    rfl
  | b1 :: b2 :: b3 :: rest, h => by
    have hb3 : b3 < 256 := h b3 (by simp)
    have h4 : b3 % 64 < 64 := by omega
    have hrest : ∀ b ∈ rest, b < 256 := fun b hb => h b (by simp [hb])
    have ih := stripmap_btoa rest hrest
    simp only [btoaChars, List.map_cons, map_replace_base64Char]
    rw [show (base64UrlChar (b1 / 4) :: base64UrlChar (b1 % 4 * 16 + b2 / 16) ::
        base64UrlChar (b2 % 16 * 4 + b3 / 64) :: base64UrlChar (b3 % 64) ::
        ((btoaChars rest).map replacePlus).map replaceSlash) =
      [base64UrlChar (b1 / 4), base64UrlChar (b1 % 4 * 16 + b2 / 16),
        base64UrlChar (b2 % 16 * 4 + b3 / 64), base64UrlChar (b3 % 64)] ++
        ((btoaChars rest).map replacePlus).map replaceSlash from rfl]
    rw [stripTrailingEq_append, ih]
    by_cases hre : rest = []
    · subst hre
      simp only [encodeB64url]
      rw [if_pos trivial]
      exact strip_pad0 _ _ _ _ (base64UrlChar_good _ h4).2.2
    · rw [if_neg (encodeB64url_ne_nil rest hre)]
      rfl

theorem decode_encodeB64url :
    ∀ l : List Nat, (∀ b ∈ l, b < 256) →
      decodeB64url (encodeB64url l) = some l
  | [], _ => rfl
  | [b1], h => by
    have hb1 : b1 < 256 := h b1 (by simp)
    have h1 : b1 / 4 < 64 := by omega
    have h2 : b1 % 4 * 16 < 64 := by omega
    simp only [encodeB64url, decodeB64url,
      base64UrlValue_base64UrlChar _ h1, base64UrlValue_base64UrlChar _ h2,
      Option.some.injEq, List.cons.injEq, and_true]
    generalize hs2 : b1 % 4 * 16 = s2
    omega
  | [b1, b2], h => by
    have hb1 : b1 < 256 := h b1 (by simp)
    have hb2 : b2 < 256 := h b2 (by simp)
    have h1 : b1 / 4 < 64 := by omega
    have h2 : b1 % 4 * 16 + b2 / 16 < 64 := by omega
    have h3 : b2 % 16 * 4 < 64 := by omega
    simp only [encodeB64url, decodeB64url,
      base64UrlValue_base64UrlChar _ h1, base64UrlValue_base64UrlChar _ h2,
      base64UrlValue_base64UrlChar _ h3,
      Option.some.injEq, List.cons.injEq, and_true]
    generalize hs2 : b1 % 4 * 16 + b2 / 16 = s2
    generalize hs3 : b2 % 16 * 4 = s3
    omega
  | b1 :: b2 :: b3 :: rest, h => by
    have hb1 : b1 < 256 := h b1 (by simp)
    have hb2 : b2 < 256 := h b2 (by simp)
    have hb3 : b3 < 256 := h b3 (by simp)
    have h1 : b1 / 4 < 64 := by omega
    have h2 : b1 % 4 * 16 + b2 / 16 < 64 := by omega
    have h3 : b2 % 16 * 4 + b3 / 64 < 64 := by omega
    have h4 : b3 % 64 < 64 := by omega
    have hrest : ∀ b ∈ rest, b < 256 := fun b hb => h b (by simp [hb])
    have ih := decode_encodeB64url rest hrest
    have hgoal : decodeB64url (encodeB64url (b1 :: b2 :: b3 :: rest)) =
        match base64UrlValue (base64UrlChar (b1 / 4)),
          base64UrlValue (base64UrlChar (b1 % 4 * 16 + b2 / 16)),
          base64UrlValue (base64UrlChar (b2 % 16 * 4 + b3 / 64)),
          base64UrlValue (base64UrlChar (b3 % 64)),
          decodeB64url (encodeB64url rest) with
        | some s1, some s2, some s3, some s4, some bs =>
          some ((s1 * 4 + s2 / 16) :: (s2 % 16 * 16 + s3 / 4) ::
            (s3 % 4 * 64 + s4) :: bs)
        | _, _, _, _, _ => none := by
      match rest with
      | [] => rfl
      | r1 :: rtl =>
        have hne := encodeB64url_ne_nil (r1 :: rtl) (by simp)
        match hee : encodeB64url (r1 :: rtl) with
        | [] => exact absurd hee hne
        | e1 :: etl =>
          rw [show encodeB64url (b1 :: b2 :: b3 :: r1 :: rtl) =
            base64UrlChar (b1 / 4) :: base64UrlChar (b1 % 4 * 16 + b2 / 16) ::
            base64UrlChar (b2 % 16 * 4 + b3 / 64) :: base64UrlChar (b3 % 64) ::
            encodeB64url (r1 :: rtl) from rfl, hee]
          rfl
    rw [hgoal, base64UrlValue_base64UrlChar _ h1, base64UrlValue_base64UrlChar _ h2,
      base64UrlValue_base64UrlChar _ h3, base64UrlValue_base64UrlChar _ h4, ih]
    simp only [Option.some.injEq, List.cons.injEq, and_true]
    generalize hs2 : b1 % 4 * 16 + b2 / 16 = s2
    generalize hs3 : b2 % 16 * 4 + b3 / 64 = s3
    omega

theorem encodeB64url_chars :
    ∀ l : List Nat, (∀ b ∈ l, b < 256) →
      ∀ c ∈ encodeB64url l, c ≠ '+' ∧ c ≠ '/' ∧ c ≠ '='
  | [], _, c, hc => by simp [encodeB64url] at hc
  | [b1], h, c, hc => by
    have hb1 : b1 < 256 := h b1 (by simp)
    simp only [encodeB64url, List.mem_cons, List.not_mem_nil, or_false] at hc
    rcases hc with hc | hc <;>
      (subst hc; exact base64UrlChar_good _ (by omega))
  | [b1, b2], h, c, hc => by
    have hb1 : b1 < 256 := h b1 (by simp)
    have hb2 : b2 < 256 := h b2 (by simp)
    simp only [encodeB64url, List.mem_cons, List.not_mem_nil, or_false] at hc
    rcases hc with hc | hc | hc <;>
      (subst hc; exact base64UrlChar_good _ (by omega))
  | b1 :: b2 :: b3 :: rest, h, c, hc => by
    have hb1 : b1 < 256 := h b1 (by simp)
    have hb2 : b2 < 256 := h b2 (by simp)
    have hb3 : b3 < 256 := h b3 (by simp)
    have hrest : ∀ b ∈ rest, b < 256 := fun b hb => h b (by simp [hb])
    rw [show encodeB64url (b1 :: b2 :: b3 :: rest) =
      base64UrlChar (b1 / 4) :: base64UrlChar (b1 % 4 * 16 + b2 / 16) ::
      base64UrlChar (b2 % 16 * 4 + b3 / 64) :: base64UrlChar (b3 % 64) ::
      encodeB64url rest from rfl] at hc
    simp only [List.mem_cons] at hc
    rcases hc with hc | hc | hc | hc | hc
    · subst hc; exact base64UrlChar_good _ (by omega)
    · subst hc; exact base64UrlChar_good _ (by omega)
    · subst hc; exact base64UrlChar_good _ (by omega)
    · subst hc; exact base64UrlChar_good _ (by omega)
    · exact encodeB64url_chars rest hrest c hc

/-- C8: for every byte sequence, base64url-decoding the output of
`arrayBufferToBase64` recovers the original bytes, and the output contains
no plus, slash or equals character. -/
theorem c8_encode_roundtrip (bytes : List Nat) (h : ∀ b ∈ bytes, b < 256) :
    decodeB64url (arrayBufferToBase64 bytes).toList = some bytes ∧
    ∀ c ∈ (arrayBufferToBase64 bytes).toList, c ≠ '+' ∧ c ≠ '/' ∧ c ≠ '=' := by
  have hl : (arrayBufferToBase64 bytes).toList = encodeB64url bytes := by
    show stripTrailingEq (((btoaChars bytes).map replacePlus).map replaceSlash) =
      encodeB64url bytes
    exact stripmap_btoa bytes h
  rw [hl]
  exact ⟨decode_encodeB64url bytes h, encodeB64url_chars bytes h⟩

/-- C8 witness at a concrete byte sequence covering all padding cases of
interest. -/
theorem c8_encode_roundtrip_witness :
    (∀ b ∈ [0, 17, 255, 254, 66], b < 256) ∧
    decodeB64url (arrayBufferToBase64 [0, 17, 255, 254, 66]).toList =
      some [0, 17, 255, 254, 66] :=
  ⟨by decide, (c8_encode_roundtrip [0, 17, 255, 254, 66] (by decide)).1⟩
